import Mathlib

/-!
Shallow embedding of the GyroCam core (src/script.js): the signal filter
(`applySmoothing`), the calibration store (`calibrate`), the render tick
(`tick` — rotation inversion, tilt classification, bubble-indicator
physics), and the dual-source motion-enablement path (`tryGenericSensor`,
`tryDeviceOrientation`, `enableMotion`, `startRenderLoop`).

Numbers are modelled as exact rationals, except that JavaScript's NaN is
representable (`JVal.nan`) because the source guards against it
explicitly (`Number.isNaN` checks in the sensor handlers and in
`applySmoothing`).  Arithmetic on `JVal` propagates NaN, and comparisons
involving NaN are false, matching JavaScript semantics.
-/

/-- A JavaScript number: either NaN or an exact rational. -/
inductive JVal where
  | nan : JVal
  | num : ℚ → JVal
deriving DecidableEq

namespace JVal

/-- `Number.isNaN`. -/
def isNaN : JVal → Bool
  | nan => true
  | num _ => false

/-- Addition; NaN-propagating. -/
def add : JVal → JVal → JVal
  | num a, num b => num (a + b)
  | _, _ => nan

/-- Subtraction; NaN-propagating. -/
def sub : JVal → JVal → JVal
  | num a, num b => num (a - b)
  | _, _ => nan

/-- Multiplication; NaN-propagating.  (The source never multiplies 0 by an
infinity, so NaN-from-products-with-infinities is out of scope.) -/
def mul : JVal → JVal → JVal
  | num a, num b => num (a * b)
  | _, _ => nan

/-- Unary minus; NaN-propagating. -/
def neg : JVal → JVal
  | num a => num (-a)
  | nan => nan

/-- `Math.abs`; NaN-propagating. -/
def abs : JVal → JVal
  | num a => num |a|
  | nan => nan

/-- JavaScript `<=`: false whenever either operand is NaN. -/
def le : JVal → JVal → Bool
  | num a, num b => a ≤ b
  | _, _ => false

/-- JavaScript `<`: false whenever either operand is NaN. -/
def lt : JVal → JVal → Bool
  | num a, num b => a < b
  | _, _ => false

/-- `Math.min`; NaN-propagating. -/
def min : JVal → JVal → JVal
  | num a, num b => num (Min.min a b)
  | _, _ => nan

/-- `Math.max`; NaN-propagating. -/
def max : JVal → JVal → JVal
  | num a, num b => num (Max.max a b)
  | _, _ => nan

/-- Division; NaN-propagating.  The source divides only by a value that a
guard has already established to be at least 500, so the division-by-zero
case (an infinity in JavaScript) is unreachable and mapped to NaN. -/
def div : JVal → JVal → JVal
  | num a, num b => if b = 0 then nan else num (a / b)
  | _, _ => nan

/-- `Math.round`: round half toward positive infinity; NaN-propagating. -/
def round : JVal → JVal
  | num a => num (⌊a + 1/2⌋ : ℤ)
  | nan => nan

end JVal

/-- `state.sensorType`: which orientation source is live. -/
inductive SensorType where
  | none : SensorType
  | genericSensor : SensorType
  | deviceOrientation : SensorType
deriving DecidableEq

/-- The shared mutable state of src/script.js (`const state = {...}`),
restricted to the sensor/filter/calibration/render core.  Camera and
recording fields are external collaborators and are omitted.  Two
counters (`startedSources`, `renderLoopStartCount`) model observable
platform effects: how many times a sensor source was started (a generic
sensor `start()` call or a device-orientation listener attachment) and
how many times the render loop was actually launched by
`startRenderLoop`.  `animFrameId` models whether a requestAnimationFrame
handle is live, `sensorInstance` whether `state.sensorInstance` is set,
`doeListenerAttached` whether the deviceorientation listener is attached,
`btnMotionDisabled` whether the Motion button has been disabled, and
`errorShown` whether the error banner is visible. -/
structure GState where
  motionEnabled : Bool
  smoothingEnabled : Bool
  sensorType : SensorType
  rawGamma : JVal
  rawBeta : JVal
  smoothedGamma : JVal
  calibrationOffset : JVal
  hasReceivedData : Bool
  dotPx : JVal
  dotPy : JVal
  dotVx : JVal
  dotVy : JVal
  sensorInstance : Bool
  doeListenerAttached : Bool
  animFrameId : Bool
  lastFrameTime : JVal
  frameCount : Nat
  currentFps : JVal
  btnMotionDisabled : Bool
  errorShown : Bool
  startedSources : Nat
  renderLoopStartCount : Nat
deriving DecidableEq

/-- The initial state literal of src/script.js. -/
def initState : GState where
  motionEnabled := false
  smoothingEnabled := true
  sensorType := SensorType.none
  rawGamma := JVal.num 0
  rawBeta := JVal.num 0
  smoothedGamma := JVal.num 0
  calibrationOffset := JVal.num 0
  hasReceivedData := false
  dotPx := JVal.num 50
  dotPy := JVal.num 50
  dotVx := JVal.num 0
  dotVy := JVal.num 0
  sensorInstance := false
  doeListenerAttached := false
  animFrameId := false
  lastFrameTime := JVal.num 0
  frameCount := 0
  currentFps := JVal.num 0
  btnMotionDisabled := false
  errorShown := false
  startedSources := 0
  renderLoopStartCount := 0

/-- `SMOOTHING_ALPHA = 0.12`. -/
def SMOOTHING_ALPHA : ℚ := 12/100

/-- `applySmoothing(raw)` from src/script.js lines 378–394: pass-through
(resynchronizing the internal state) when smoothing is disabled or the
internal state is NaN; otherwise `smoothed = smoothed + alpha * (raw -
smoothed)`.  Returns the value returned by the JS function together with
the updated state. -/
def applySmoothing (s : GState) (raw : JVal) : JVal × GState :=
  if !s.smoothingEnabled then
    (raw, { s with smoothedGamma := raw })
  else
    let prev := s.smoothedGamma
    if prev.isNaN then
      (raw, { s with smoothedGamma := raw })
    else
      let next := prev.add ((JVal.num SMOOTHING_ALPHA).mul (raw.sub prev))
      (next, { s with smoothedGamma := next })

/-- `calibrate()` from src/script.js lines 398–405: store the current
smoothed value as the offset and reset the bubble dot to center with
zero velocity.  (The button-label change is a DOM effect outside the
core state.) -/
def calibrate (s : GState) : GState :=
  { s with
    calibrationOffset := s.smoothedGamma
    dotPx := JVal.num 50
    dotPy := JVal.num 50
    dotVx := JVal.num 0
    dotVy := JVal.num 0 }

/-- The tilt-classification block of `tick` (src/script.js lines
556–568), as a function of `absTilt = Math.abs(corrected)`.  Returns
(horizon-line class, status-badge class, status-badge text). -/
def classifyTilt (absTilt : JVal) : String × String × String :=
  if absTilt.le (JVal.num (3/2)) then
    ("level", "level", "LEVEL")
  else if absTilt.le (JVal.num 10) then
    ("", "tilted", "TILTED")
  else
    ("tilted", "very-tilted", "TILTED")

/-- The values `tick` publishes to the DOM on one frame: the rotation fed
to the CSS transform (`rotate(rotation deg)`), the horizon-line and
status-badge classes and the badge text, and the smoothed/corrected
angles (also shown in the tilt readout and debug panel). -/
structure TickView where
  rotation : JVal
  horizonClass : String
  badgeClass : String
  badgeText : String
  smoothed : JVal
  corrected : JVal
deriving DecidableEq

/-- One render tick (src/script.js lines 523–599), minus the DOM/canvas
publishing, which is captured in the returned `TickView`.  The first
line models `requestAnimationFrame(tick)` storing a live frame handle. -/
def tick (now : JVal) (s0 : GState) : GState × TickView :=
  let s1 : GState := { s0 with animFrameId := true }
  -- FPS tracking
  let s2 : GState := { s1 with frameCount := s1.frameCount + 1 }
  let elapsed := now.sub s2.lastFrameTime
  let s3 : GState :=
    if (JVal.num 500).le elapsed then
      { s2 with
        currentFps := (((JVal.num s2.frameCount).div elapsed).mul (JVal.num 1000)).round
        frameCount := 0
        lastFrameTime := now }
    else s2
  -- Compute smoothed, calibrated tilt
  let sm := applySmoothing s3 s3.rawGamma
  let smoothed := sm.1
  let s4 := sm.2
  let corrected := smoothed.sub s4.calibrationOffset
  -- Rotation inversion
  let rotation := corrected.neg
  -- Tilt readout and classification
  let absTilt := corrected.abs
  let cls := classifyTilt absTilt
  -- Bubble level dot physics
  let vx := s4.dotVx.add ((s4.rawGamma.mul (JVal.num (1/60))).mul (JVal.num 2))
  let vy := s4.dotVy.add (s4.rawBeta.mul (JVal.num (1/60)))
  let px := s4.dotPx.add (vx.mul (JVal.num (1/2)))
  let clampX := (JVal.num 98).lt px || px.lt (JVal.num 0)
  let px' := if clampX then (JVal.num 0).max ((JVal.num 98).min px) else px
  let vx' := if clampX then JVal.num 0 else vx
  let py := s4.dotPy.add (vy.mul (JVal.num (1/2)))
  let clampY := (JVal.num 98).lt py || py.lt (JVal.num 0)
  let py' := if clampY then (JVal.num 0).max ((JVal.num 98).min py) else py
  let vy' := if clampY then JVal.num 0 else vy
  ({ s4 with dotVx := vx', dotVy := vy', dotPx := px', dotPy := py' },
   { rotation := rotation
     horizonClass := cls.1
     badgeClass := cls.2.1
     badgeText := cls.2.2
     smoothed := smoothed
     corrected := corrected })

/-- `startRenderLoop()` (src/script.js lines 516–521): early-return when
an animation-frame handle is already live; otherwise reset the FPS
window, count the launch, and run the first `tick` at the current time. -/
def startRenderLoop (now : JVal) (s : GState) : GState :=
  if s.animFrameId then s
  else
    let s' : GState :=
      { s with
        lastFrameTime := now
        frameCount := 0
        renderLoopStartCount := s.renderLoopStartCount + 1 }
    (tick now s').1

/-- `onMotionReady(sensorType)` (src/script.js lines 164–174): record the
live source, disable the Motion button, start the render loop, hide the
error banner. -/
def onMotionReady (st : SensorType) (now : JVal) (s : GState) : GState :=
  let s1 : GState :=
    { s with
      sensorType := st
      motionEnabled := true
      btnMotionDisabled := true }
  let s2 := startRenderLoop now s1
  { s2 with errorShown := false }

/-- The `reading`-event handler body of `tryGenericSensor` (src/script.js
lines 216–246) after the quaternion-to-Euler conversion: `gamma` and
`beta` stand for the already-computed `atan2`/`asin` results (transcendental
floating-point values abstracted as `JVal`).  A NaN angle is dropped;
a numeric one is written to shared state. -/
def onGenericReading (gamma beta : JVal) (s : GState) : GState :=
  let s1 : GState :=
    if !gamma.isNaN then
      { s with rawGamma := gamma, hasReceivedData := true }
    else s
  if !beta.isNaN then { s1 with rawBeta := beta } else s1

/-- Which of the mutually exclusive outcomes the platform delivers for the
generic-sensor attempt (src/script.js lines 186–278): the API is absent;
a permission facet is denied; the constructor throws; the first event is
a reading (with the quaternion either absent or converted to the given
gamma/beta angles); the first event is an error; or no event arrives
within the 2-second timeout. -/
inductive GenericOutcome where
  | unavailable : GenericOutcome
  | permissionDenied : GenericOutcome
  | ctorThrow : GenericOutcome
  | firstReading : Option (JVal × JVal) → GenericOutcome
  | errorFirst : GenericOutcome
  | timeoutNoReading : GenericOutcome
deriving DecidableEq

/-- `tryGenericSensor()` (src/script.js lines 186–278) as a function of
the platform outcome.  `sensor.start()` is counted in `startedSources`
in every branch where the constructor succeeded.  On the first reading
the handler runs (possibly with a null quaternion, in which case no
state is written but the promise still resolves true and the sensor
instance is retained); on an error or timeout the promise resolves
false. -/
def tryGenericSensor (o : GenericOutcome) (s : GState) : Bool × GState :=
  match o with
  | GenericOutcome.unavailable => (false, s)
  | GenericOutcome.permissionDenied => (false, s)
  | GenericOutcome.ctorThrow => (false, s)
  | GenericOutcome.firstReading q =>
    let s1 : GState := { s with startedSources := s.startedSources + 1 }
    let s2 :=
      match q with
      | some (g, b) => onGenericReading g b s1
      | Option.none => s1
    (true, { s2 with sensorInstance := true })
  | GenericOutcome.errorFirst =>
    (false, { s with startedSources := s.startedSources + 1 })
  | GenericOutcome.timeoutNoReading =>
    (false, { s with startedSources := s.startedSources + 1 })

/-- One `deviceorientation` event: `gamma`/`beta` may be null. -/
structure DOEEvent where
  gamma : Option JVal
  beta : Option JVal
deriving DecidableEq

/-- Outcome of the iOS-style permission gate in `tryDeviceOrientation`
(src/script.js lines 293–302): no `requestPermission` function exists;
or it exists and resolves granted, resolves non-granted, or throws. -/
inductive DOEPermission where
  | noPermFn : DOEPermission
  | granted : DOEPermission
  | notGranted : DOEPermission
  | threw : DOEPermission
deriving DecidableEq

/-- The `deviceorientation` handler of `tryDeviceOrientation`
(src/script.js lines 308–332): count the attempt; a non-null, non-NaN
gamma is written to shared state and marks data as received once it is
nonzero or more than 5 attempts have passed; likewise beta is written
when non-null and non-NaN.  Returns the new attempt count and state. -/
def doeHandler (ev : DOEEvent) (attempts : Nat) (s : GState) : Nat × GState :=
  let attempts' := attempts + 1
  let s1 : GState :=
    match ev.gamma with
    | some g =>
      if !g.isNaN then
        let sg : GState := { s with rawGamma := g }
        if g ≠ JVal.num 0 ∨ attempts' > 5 then
          { sg with hasReceivedData := true }
        else sg
      else s
    | Option.none => s
  let s2 : GState :=
    match ev.beta with
    | some b => if !b.isNaN then { s1 with rawBeta := b } else s1
    | Option.none => s1
  (attempts', s2)

/-- The `deviceorientationabsolute` listener of `tryDeviceOrientation`
(src/script.js lines 337–345); it does not participate in promise
resolution. -/
def onDOEAbsolute (ev : DOEEvent) (s : GState) : GState :=
  let s1 : GState :=
    match ev.gamma with
    | some g =>
      if !g.isNaN then { s with rawGamma := g, hasReceivedData := true } else s
    | Option.none => s
  match ev.beta with
  | some b => if !b.isNaN then { s1 with rawBeta := b } else s1
  | Option.none => s1

/-- `tryDeviceOrientation()` (src/script.js lines 287–365) as a function
of the platform: API availability, the permission-gate outcome, and the
list of `deviceorientation` events delivered before the 2-second
timeout.  The handler resolves true as soon as 3 events have arrived;
at the timeout the promise resolves true when at least one event
arrived, and false (detaching the listener) when none did.  Attaching
the listener counts as starting a source. -/
def tryDeviceOrientation (avail : Bool) (perm : DOEPermission)
    (evs : List DOEEvent) (s : GState) : Bool × GState :=
  if !avail then (false, s)
  else
    match perm with
    | DOEPermission.notGranted => (false, s)
    | DOEPermission.threw => (false, s)
    | _ =>
      let s0 : GState :=
        { s with
          startedSources := s.startedSources + 1
          doeListenerAttached := true }
      let r := evs.foldl (fun (p : Nat × GState) ev => doeHandler ev p.1 p.2) (0, s0)
      let attempts := r.1
      let s1 := r.2
      if attempts ≥ 3 then (true, s1)
      else if attempts > 0 then (true, s1)
      else (false, { s1 with doeListenerAttached := false })

/-- The platform behaviour one `enableMotion()` call runs against: the
generic-sensor outcome, the device-orientation availability, permission
outcome and delivered events, and the wall-clock time at which the
render loop would be started. -/
structure MotionEnv where
  generic : GenericOutcome
  doeAvail : Bool
  doePerm : DOEPermission
  doeEvents : List DOEEvent
  now : JVal
deriving DecidableEq

/-- `enableMotion()` (src/script.js lines 140–159): try the generic
sensor, fall back to device-orientation events, and on success of either
run `onMotionReady`; when both fail, show the error banner. -/
def enableMotion (env : MotionEnv) (s : GState) : GState :=
  let g := tryGenericSensor env.generic s
  if g.1 then onMotionReady SensorType.genericSensor env.now g.2
  else
    let d := tryDeviceOrientation env.doeAvail env.doePerm env.doeEvents g.2
    if d.1 then onMotionReady SensorType.deviceOrientation env.now d.2
    else { d.2 with errorShown := true }

/-- Scenario harness: run `tick` repeatedly, with the sensor writing the
given (numeric) gamma/beta readings into shared state before each frame;
each list entry is (frame time, rawGamma, rawBeta). -/
def tickSeq : List (JVal × ℚ × ℚ) → GState → GState
  | [], s => s
  | (now, g, b) :: rest, s =>
    tickSeq rest (tick now { s with rawGamma := JVal.num g, rawBeta := JVal.num b }).1

/-- Scenario harness: iterate `applySmoothing` with a constant raw input,
discarding the returned values (as the N-tick filter-convergence law
does). -/
def smoothIter (raw : JVal) : Nat → GState → GState
  | 0, s => s
  | n + 1, s => smoothIter raw n (applySmoothing s raw).2

/-!  Helper lemmas (shared by several claim theorems). -/

/-- Closed form of the value returned by `applySmoothing`. -/
lemma applySmoothing_fst (s : GState) (raw : JVal) :
    (applySmoothing s raw).1 =
      if !s.smoothingEnabled then raw
      else if s.smoothedGamma.isNaN then raw
      else s.smoothedGamma.add ((JVal.num SMOOTHING_ALPHA).mul (raw.sub s.smoothedGamma)) := by
  unfold applySmoothing
  split <;> [rfl; (dsimp only []; split <;> rfl)]

/-- `applySmoothing` writes its return value to `smoothedGamma` and
changes nothing else. -/
lemma applySmoothing_snd (s : GState) (raw : JVal) :
    (applySmoothing s raw).2 = { s with smoothedGamma := (applySmoothing s raw).1 } := by
  unfold applySmoothing
  split <;> [rfl; (dsimp only []; split <;> rfl)]

/-- What one `tick` publishes, in terms of the pre-tick state. -/
lemma tick_view (now : JVal) (s : GState) :
    (tick now s).2 =
      { rotation := (((applySmoothing s s.rawGamma).1).sub s.calibrationOffset).neg
        horizonClass := (classifyTilt ((((applySmoothing s s.rawGamma).1).sub s.calibrationOffset).abs)).1
        badgeClass := (classifyTilt ((((applySmoothing s s.rawGamma).1).sub s.calibrationOffset).abs)).2.1
        badgeText := (classifyTilt ((((applySmoothing s s.rawGamma).1).sub s.calibrationOffset).abs)).2.2
        smoothed := (applySmoothing s s.rawGamma).1
        corrected := ((applySmoothing s s.rawGamma).1).sub s.calibrationOffset } := by
  unfold tick
  dsimp only []
  split <;> simp [applySmoothing_fst, applySmoothing_snd]

/-- The horizontal dot update one `tick` performs, in terms of the
pre-tick state. -/
lemma tick_dotX (now : JVal) (s : GState) :
    ((tick now s).1.dotPx, (tick now s).1.dotVx) =
      (let vx := s.dotVx.add ((s.rawGamma.mul (JVal.num (1/60))).mul (JVal.num 2))
       let px := s.dotPx.add (vx.mul (JVal.num (1/2)))
       if (JVal.num 98).lt px || px.lt (JVal.num 0)
       then ((JVal.num 0).max ((JVal.num 98).min px), JVal.num 0)
       else (px, vx)) := by
  unfold tick
  dsimp only []
  split <;> simp [applySmoothing_snd] <;> split <;> simp

/-- The vertical dot update one `tick` performs, in terms of the
pre-tick state. -/
lemma tick_dotY (now : JVal) (s : GState) :
    ((tick now s).1.dotPy, (tick now s).1.dotVy) =
      (let vy := s.dotVy.add (s.rawBeta.mul (JVal.num (1/60)))
       let py := s.dotPy.add (vy.mul (JVal.num (1/2)))
       if (JVal.num 98).lt py || py.lt (JVal.num 0)
       then ((JVal.num 0).max ((JVal.num 98).min py), JVal.num 0)
       else (py, vy)) := by
  unfold tick
  dsimp only []
  split <;> simp [applySmoothing_snd] <;> split <;> simp

/-- Fields `tick` leaves unchanged, and the smoothed value it stores. -/
lemma tick_pres (now : JVal) (s : GState) :
    (tick now s).1.rawGamma = s.rawGamma ∧
    (tick now s).1.rawBeta = s.rawBeta ∧
    (tick now s).1.smoothingEnabled = s.smoothingEnabled ∧
    (tick now s).1.calibrationOffset = s.calibrationOffset ∧
    (tick now s).1.smoothedGamma = (applySmoothing s s.rawGamma).1 := by
  unfold tick
  dsimp only []
  split <;> simp [applySmoothing_fst, applySmoothing_snd]

lemma tick_rawGamma (now : JVal) (s : GState) : (tick now s).1.rawGamma = s.rawGamma := by
  unfold tick; dsimp only []; split <;> simp [applySmoothing_snd]

lemma tick_rawBeta (now : JVal) (s : GState) : (tick now s).1.rawBeta = s.rawBeta := by
  unfold tick; dsimp only []; split <;> simp [applySmoothing_snd]

lemma tick_animFrameId (now : JVal) (s : GState) : (tick now s).1.animFrameId = true := by
  unfold tick; dsimp only []; split <;> simp [applySmoothing_snd]

lemma tick_sensorType (now : JVal) (s : GState) : (tick now s).1.sensorType = s.sensorType := by
  unfold tick; dsimp only []; split <;> simp [applySmoothing_snd]

lemma tick_startedSources (now : JVal) (s : GState) :
    (tick now s).1.startedSources = s.startedSources := by
  unfold tick; dsimp only []; split <;> simp [applySmoothing_snd]

lemma tick_renderLoopStartCount (now : JVal) (s : GState) :
    (tick now s).1.renderLoopStartCount = s.renderLoopStartCount := by
  unfold tick; dsimp only []; split <;> simp [applySmoothing_snd]

lemma tick_motionEnabled (now : JVal) (s : GState) :
    (tick now s).1.motionEnabled = s.motionEnabled := by
  unfold tick; dsimp only []; split <;> simp [applySmoothing_snd]

lemma tick_btnMotionDisabled (now : JVal) (s : GState) :
    (tick now s).1.btnMotionDisabled = s.btnMotionDisabled := by
  unfold tick; dsimp only []; split <;> simp [applySmoothing_snd]

lemma tick_errorShown (now : JVal) (s : GState) : (tick now s).1.errorShown = s.errorShown := by
  unfold tick; dsimp only []; split <;> simp [applySmoothing_snd]

lemma tick_sensorInstance (now : JVal) (s : GState) :
    (tick now s).1.sensorInstance = s.sensorInstance := by
  unfold tick; dsimp only []; split <;> simp [applySmoothing_snd]

lemma tick_smoothingEnabled (now : JVal) (s : GState) :
    (tick now s).1.smoothingEnabled = s.smoothingEnabled := by
  unfold tick; dsimp only []; split <;> simp [applySmoothing_snd]

/-- The device-orientation handler increments the attempt counter. -/
lemma doeHandler_fst (ev : DOEEvent) (n : Nat) (s : GState) :
    (doeHandler ev n s).1 = n + 1 := by
  unfold doeHandler
  rfl

/-- The device-orientation handler touches neither the render loop nor
the animation-frame handle. -/
lemma doeHandler_pres (ev : DOEEvent) (n : Nat) (s : GState) :
    (doeHandler ev n s).2.animFrameId = s.animFrameId ∧
    (doeHandler ev n s).2.renderLoopStartCount = s.renderLoopStartCount := by
  unfold doeHandler
  dsimp only []
  rcases ev with ⟨g, b⟩
  cases g <;> cases b <;> dsimp only [] <;> first
    | (split_ifs <;> simp)
    | simp

/-- Total event count after folding the handler over a list of events. -/
lemma doeFold_attempts (evs : List DOEEvent) : ∀ (n : Nat) (s : GState),
    (evs.foldl (fun (p : Nat × GState) ev => doeHandler ev p.1 p.2) (n, s)).1
      = n + evs.length := by
  induction evs with
  | nil => intro n s; simp
  | cons e t ih =>
    intro n s
    simp only [List.foldl_cons]
    rw [show (doeHandler e n s) = ((doeHandler e n s).1, (doeHandler e n s).2) from rfl]
    rw [ih, doeHandler_fst]
    simp [List.length_cons]
    omega

/-- Folding the handler over events touches neither the render loop nor
the animation-frame handle. -/
lemma doeFold_pres (evs : List DOEEvent) : ∀ (n : Nat) (s : GState),
    ((evs.foldl (fun (p : Nat × GState) ev => doeHandler ev p.1 p.2) (n, s)).2.animFrameId
        = s.animFrameId ∧
     (evs.foldl (fun (p : Nat × GState) ev => doeHandler ev p.1 p.2) (n, s)).2.renderLoopStartCount
        = s.renderLoopStartCount) := by
  induction evs with
  | nil => intro n s; simp
  | cons e t ih =>
    intro n s
    simp only [List.foldl_cons]
    rw [show (doeHandler e n s) = ((doeHandler e n s).1, (doeHandler e n s).2) from rfl]
    constructor
    · rw [(ih _ _).1, (doeHandler_pres e n s).1]
    · rw [(ih _ _).2, (doeHandler_pres e n s).2]

/-- The generic-sensor reading handler touches only the raw angles and
the data flag. -/
lemma onGenericReading_pres (g b : JVal) (s : GState) :
    (onGenericReading g b s).animFrameId = s.animFrameId ∧
    (onGenericReading g b s).renderLoopStartCount = s.renderLoopStartCount ∧
    (onGenericReading g b s).startedSources = s.startedSources ∧
    (onGenericReading g b s).smoothedGamma = s.smoothedGamma ∧
    (onGenericReading g b s).calibrationOffset = s.calibrationOffset := by
  unfold onGenericReading
  dsimp only []
  split_ifs <;> simp

/-- Neither generic-sensor attempt branch touches the render loop or the
animation-frame handle. -/
lemma tryGenericSensor_pres (o : GenericOutcome) (s : GState) :
    (tryGenericSensor o s).2.animFrameId = s.animFrameId ∧
    (tryGenericSensor o s).2.renderLoopStartCount = s.renderLoopStartCount := by
  cases o with
  | firstReading q =>
    cases q with
    | none => simp [tryGenericSensor]
    | some gb =>
      have h := onGenericReading_pres gb.1 gb.2
        { s with startedSources := s.startedSources + 1 }
      simp only [tryGenericSensor]
      exact ⟨h.1, h.2.1⟩
  | unavailable => simp [tryGenericSensor]
  | permissionDenied => simp [tryGenericSensor]
  | ctorThrow => simp [tryGenericSensor]
  | errorFirst => simp [tryGenericSensor]
  | timeoutNoReading => simp [tryGenericSensor]

/-- Neither device-orientation attempt branch touches the render loop or
the animation-frame handle. -/
lemma tryDeviceOrientation_pres (a : Bool) (p : DOEPermission) (evs : List DOEEvent)
    (s : GState) :
    (tryDeviceOrientation a p evs s).2.animFrameId = s.animFrameId ∧
    (tryDeviceOrientation a p evs s).2.renderLoopStartCount = s.renderLoopStartCount := by
  unfold tryDeviceOrientation
  cases a with
  | false => simp
  | true =>
    dsimp only []
    cases p <;> dsimp only [] <;>
      first
        | exact ⟨rfl, rfl⟩
        | · have h := doeFold_pres evs 0
              { s with startedSources := s.startedSources + 1, doeListenerAttached := true }
            split_ifs <;> simp_all


/-- `startRenderLoop` is a no-op while a frame handle is live. -/
lemma startRenderLoop_active (now : JVal) (s : GState) (h : s.animFrameId = true) :
    startRenderLoop now s = s := by
  simp [startRenderLoop, h]

/-- Effects of an actual render-loop launch. -/
lemma startRenderLoop_inactive (now : JVal) (s : GState) (h : s.animFrameId = false) :
    (startRenderLoop now s).animFrameId = true ∧
    (startRenderLoop now s).renderLoopStartCount = s.renderLoopStartCount + 1 ∧
    (startRenderLoop now s).startedSources = s.startedSources ∧
    (startRenderLoop now s).sensorType = s.sensorType ∧
    (startRenderLoop now s).motionEnabled = s.motionEnabled ∧
    (startRenderLoop now s).btnMotionDisabled = s.btnMotionDisabled ∧
    (startRenderLoop now s).rawGamma = s.rawGamma := by
  simp only [startRenderLoop, h, Bool.false_eq_true, if_false]
  refine ⟨tick_animFrameId _ _, ?_, ?_, ?_, ?_, ?_, ?_⟩ <;>
    simp [tick_renderLoopStartCount, tick_startedSources, tick_sensorType,
      tick_motionEnabled, tick_btnMotionDisabled, tick_rawGamma]

/-- `onMotionReady` records the source type and disables the Motion
button, whatever the render-loop state. -/
lemma onMotionReady_fields (st : SensorType) (now : JVal) (s : GState) :
    (onMotionReady st now s).sensorType = st ∧
    (onMotionReady st now s).motionEnabled = true ∧
    (onMotionReady st now s).btnMotionDisabled = true ∧
    (onMotionReady st now s).animFrameId = true := by
  unfold onMotionReady
  dsimp only []
  cases h : s.animFrameId with
  | true =>
    rw [startRenderLoop_active now _ rfl]
    exact ⟨rfl, rfl, rfl, rfl⟩
  | false =>
    have h' := startRenderLoop_inactive now
      { s with sensorType := st, motionEnabled := true, btnMotionDisabled := true,
               animFrameId := false } rfl
    exact ⟨h'.2.2.2.1, h'.2.2.2.2.1, h'.2.2.2.2.2.1, h'.1⟩

/-- While a frame handle is live, `onMotionReady` does not launch a
second render loop. -/
lemma onMotionReady_active (st : SensorType) (now : JVal) (s : GState)
    (h : s.animFrameId = true) :
    (onMotionReady st now s).renderLoopStartCount = s.renderLoopStartCount ∧
    (onMotionReady st now s).startedSources = s.startedSources := by
  unfold onMotionReady
  dsimp only []
  rw [startRenderLoop_active now
    { s with sensorType := st, motionEnabled := true, btnMotionDisabled := true } h]
  exact ⟨rfl, rfl⟩

/-!  Claim theorems. -/

/-- C1: on every render tick, the published rotation equals the exact
negation of the corrected angle: the tick computes
`corrected = applySmoothing(rawGamma) − calibrationOffset` and publishes
`rotation = −corrected` to the visual transform, for every raw angle,
filter state and calibration offset, with no scaling, clamping or other
modification. -/
theorem tick_rotation_inversion (now : JVal) (s : GState) :
    (tick now s).2.corrected = ((applySmoothing s s.rawGamma).1).sub s.calibrationOffset ∧
    (tick now s).2.rotation = (tick now s).2.corrected.neg := by
  rw [tick_view]
  exact ⟨rfl, rfl⟩

/-- C2: tilt classification is a pure function of the absolute corrected
angle, recomputed fresh each tick from the current corrected value, with
inclusive upper boundaries: up to 1.5 degrees it is LEVEL, above 1.5 and
up to 10 it is TILTED, and above 10 it takes the VERY_TILTED styling
while still labelling the badge "TILTED". -/
theorem tilt_classification :
    (∀ (now : JVal) (s : GState),
        ((tick now s).2.horizonClass, (tick now s).2.badgeClass, (tick now s).2.badgeText)
          = classifyTilt ((tick now s).2.corrected.abs)) ∧
    (∀ q : ℚ, |q| ≤ 3/2 → classifyTilt ((JVal.num q).abs) = ("level", "level", "LEVEL")) ∧
    (∀ q : ℚ, 3/2 < |q| → |q| ≤ 10 →
        classifyTilt ((JVal.num q).abs) = ("", "tilted", "TILTED")) ∧
    (∀ q : ℚ, 10 < |q| →
        classifyTilt ((JVal.num q).abs) = ("tilted", "very-tilted", "TILTED")) := by
  refine ⟨fun now s => ?_, fun q h => ?_, fun q h1 h2 => ?_, fun q h => ?_⟩
  · rw [tick_view]
  · simp [classifyTilt, JVal.abs, JVal.le, h]
  · simp [classifyTilt, JVal.abs, JVal.le, h2, not_le.mpr h1]
  · have h1 : ¬(|q| ≤ 3/2) := not_le.mpr (lt_trans (by norm_num) h)
    simp [classifyTilt, JVal.abs, JVal.le, h1, not_le.mpr h]

/-- Witness for C2 at the boundary values named by the claim. -/
theorem tilt_classification_witness :
    classifyTilt ((JVal.num (3/2)).abs) = ("level", "level", "LEVEL") ∧
    classifyTilt ((JVal.num (-(3/2))).abs) = ("level", "level", "LEVEL") ∧
    classifyTilt ((JVal.num 10).abs) = ("", "tilted", "TILTED") ∧
    classifyTilt ((JVal.num (100001/10000)).abs) = ("tilted", "very-tilted", "TILTED") :=
  ⟨tilt_classification.2.1 (3/2) (by rw [abs_of_nonneg] <;> norm_num),
   tilt_classification.2.1 (-(3/2)) (by rw [abs_neg, abs_of_nonneg] <;> norm_num),
   tilt_classification.2.2.1 10 (by rw [abs_of_nonneg] <;> norm_num)
     (by rw [abs_of_nonneg] <;> norm_num),
   tilt_classification.2.2.2 (100001/10000) (by rw [abs_of_nonneg] <;> norm_num)⟩

/-- C4: with smoothing disabled, `applySmoothing` returns the raw input
exactly and resynchronizes the internal smoothed state to it, for every
raw input and every starting filter state. -/
theorem smoothing_disabled_passthrough (s : GState) (raw : JVal)
    (h : s.smoothingEnabled = false) :
    (applySmoothing s raw).1 = raw ∧
    (applySmoothing s raw).2 = { s with smoothedGamma := raw } := by
  unfold applySmoothing
  rw [h]
  exact ⟨rfl, rfl⟩

/-- Witness for C4 at a concrete disabled state and raw value. -/
theorem smoothing_disabled_passthrough_witness :
    (applySmoothing { initState with smoothingEnabled := false } (JVal.num 7)).1
      = JVal.num 7 ∧
    (applySmoothing { initState with smoothingEnabled := false } (JVal.num 7)).2
      = { initState with smoothingEnabled := false, smoothedGamma := JVal.num 7 } :=
  smoothing_disabled_passthrough { initState with smoothingEnabled := false } (JVal.num 7) rfl

/-- C10: with smoothing enabled and a numeric previous state `p`,
`applySmoothing` returns `p + 0.12·(raw − p)`, which lies between `p`
and `raw` inclusive, and the distance to the raw input never increases
across the call. -/
theorem smoothing_contraction (s : GState) (p r : ℚ)
    (he : s.smoothingEnabled = true) (hp : s.smoothedGamma = JVal.num p) :
    (applySmoothing s (JVal.num r)).1 = JVal.num (p + SMOOTHING_ALPHA * (r - p)) ∧
    Min.min p r ≤ p + SMOOTHING_ALPHA * (r - p) ∧
    p + SMOOTHING_ALPHA * (r - p) ≤ Max.max p r ∧
    |(p + SMOOTHING_ALPHA * (r - p)) - r| ≤ |p - r| := by
  refine ⟨?_, ?_, ?_, ?_⟩
  · rw [applySmoothing_fst, he, hp]
    simp [JVal.isNaN, JVal.add, JVal.mul, JVal.sub]
  · rcases le_total p r with h | h
    · rw [min_eq_left h]; unfold SMOOTHING_ALPHA; nlinarith
    · rw [min_eq_right h]; unfold SMOOTHING_ALPHA; nlinarith
  · rcases le_total p r with h | h
    · rw [max_eq_right h]; unfold SMOOTHING_ALPHA; nlinarith
    · rw [max_eq_left h]; unfold SMOOTHING_ALPHA; nlinarith
  · have hkey : (p + SMOOTHING_ALPHA * (r - p)) - r = (1 - SMOOTHING_ALPHA) * (p - r) := by
      ring
    have habs : |(1 - SMOOTHING_ALPHA : ℚ)| = 1 - SMOOTHING_ALPHA := by
      rw [abs_of_nonneg] <;> unfold SMOOTHING_ALPHA <;> norm_num
    rw [hkey, abs_mul, habs]
    unfold SMOOTHING_ALPHA
    nlinarith [abs_nonneg (p - r)]

/-- Witness for C10 at the initial state and raw value 10. -/
theorem smoothing_contraction_witness :
    (applySmoothing initState (JVal.num 10)).1
      = JVal.num (0 + SMOOTHING_ALPHA * (10 - 0)) ∧
    Min.min (0:ℚ) 10 ≤ 0 + SMOOTHING_ALPHA * (10 - 0) ∧
    (0:ℚ) + SMOOTHING_ALPHA * (10 - 0) ≤ Max.max 0 10 ∧
    |((0:ℚ) + SMOOTHING_ALPHA * (10 - 0)) - 10| ≤ |(0:ℚ) - 10| :=
  smoothing_contraction initState 0 10 rfl rfl

/-- With smoothing enabled and a numeric state, iterating the filter on a
constant input follows the closed-form geometric recurrence. -/
lemma smoothIter_enabled_val (r : ℚ) : ∀ (n : Nat) (a : ℚ) (s : GState),
    s.smoothingEnabled = true → s.smoothedGamma = JVal.num a →
    (smoothIter (JVal.num r) n s).smoothedGamma
      = JVal.num (r + (1 - SMOOTHING_ALPHA)^n * (a - r)) := by
  intro n
  induction n with
  | zero =>
    intro a s he ha
    simp only [smoothIter]
    rw [ha]
    exact congrArg JVal.num (by ring)
  | succ k ih =>
    intro a s he ha
    have hval : (applySmoothing s (JVal.num r)).1
        = JVal.num (a + SMOOTHING_ALPHA * (r - a)) := by
      rw [applySmoothing_fst, he, ha]
      simp [JVal.isNaN, JVal.add, JVal.mul, JVal.sub]
    have hs' : (applySmoothing s (JVal.num r)).2.smoothingEnabled = true := by
      rw [applySmoothing_snd]; exact he
    have hg' : (applySmoothing s (JVal.num r)).2.smoothedGamma
        = JVal.num (a + SMOOTHING_ALPHA * (r - a)) := by
      rw [applySmoothing_snd]; exact hval
    have hrec := ih (a + SMOOTHING_ALPHA * (r - a)) (applySmoothing s (JVal.num r)).2 hs' hg'
    simp only [smoothIter]
    rw [hrec]
    exact congrArg JVal.num (by ring)

/-- C3: geometric convergence of the filter: with smoothing enabled and a
numeric starting state `a`, applying a constant raw input `r` for `n`
consecutive `applySmoothing` calls yields the value
`r + (1 − 0.12)^n·(a − r)`, whose distance to `r` is
`|a − r|·(1 − 0.12)^n`. -/
theorem filter_geometric_decay (s : GState) (a r : ℚ) (n : Nat)
    (he : s.smoothingEnabled = true) (ha : s.smoothedGamma = JVal.num a) :
    (smoothIter (JVal.num r) n s).smoothedGamma
      = JVal.num (r + (1 - SMOOTHING_ALPHA)^n * (a - r)) ∧
    |(r + (1 - SMOOTHING_ALPHA)^n * (a - r)) - r| = |a - r| * (1 - SMOOTHING_ALPHA)^n := by
  refine ⟨smoothIter_enabled_val r n a s he ha, ?_⟩
  have hkey : (r + (1 - SMOOTHING_ALPHA)^n * (a - r)) - r
      = (1 - SMOOTHING_ALPHA)^n * (a - r) := by ring
  have habs : |(1 - SMOOTHING_ALPHA : ℚ)| = 1 - SMOOTHING_ALPHA := by
    rw [abs_of_nonneg] <;> unfold SMOOTHING_ALPHA <;> norm_num
  rw [hkey, abs_mul, abs_pow, habs, mul_comm]

/-- Witness for C3: the claim's instance, raw input 30 held for 10 calls
from the initial state: the result is exactly 30·(1 − 0.88^10). -/
theorem filter_geometric_decay_witness :
    (smoothIter (JVal.num 30) 10 initState).smoothedGamma
      = JVal.num (30 + (1 - SMOOTHING_ALPHA)^10 * (0 - 30)) ∧
    (30 + (1 - SMOOTHING_ALPHA)^10 * ((0:ℚ) - 30)) = 30 * (1 - (22/25)^10) :=
  ⟨(filter_geometric_decay initState 0 30 10 rfl rfl).1,
   by unfold SMOOTHING_ALPHA; norm_num⟩

/-- C9: NaN containment.  A generic-sensor reading whose computed gamma
is NaN does not write the shared raw angle or the data flag (the previous
raw value is retained); the sensor handler never touches the filter or
calibration state at all; the legacy handler likewise drops a NaN gamma;
and when the filter's internal state is NaN, the next `applySmoothing`
call returns the raw value and resynchronizes the state to it instead of
propagating NaN. -/
theorem nan_dropped_and_resynced :
    (∀ (g b : JVal) (s : GState), g.isNaN = true →
        (onGenericReading g b s).rawGamma = s.rawGamma ∧
        (onGenericReading g b s).hasReceivedData = s.hasReceivedData) ∧
    (∀ (g b : JVal) (s : GState),
        (onGenericReading g b s).smoothedGamma = s.smoothedGamma ∧
        (onGenericReading g b s).calibrationOffset = s.calibrationOffset) ∧
    (∀ (ev : DOEEvent) (n : Nat) (s : GState) (g : JVal),
        ev.gamma = some g → g.isNaN = true →
        (doeHandler ev n s).2.rawGamma = s.rawGamma) ∧
    (∀ (raw : JVal) (s : GState), s.smoothedGamma.isNaN = true →
        (applySmoothing s raw).1 = raw ∧
        (applySmoothing s raw).2 = { s with smoothedGamma := raw }) := by
  refine ⟨fun g b s h => ?_, fun g b s => ?_, fun ev n s g hev h => ?_, fun raw s h => ?_⟩
  · unfold onGenericReading
    rw [h]
    dsimp only []
    split_ifs <;> simp_all
  · exact ⟨(onGenericReading_pres g b s).2.2.2.1, (onGenericReading_pres g b s).2.2.2.2⟩
  · rcases ev with ⟨go, bo⟩
    dsimp only [] at hev
    subst hev
    unfold doeHandler
    dsimp only []
    rw [h]
    cases bo <;> dsimp only [] <;> first
      | (split_ifs <;> simp_all)
      | simp_all
  · unfold applySmoothing
    cases hb : s.smoothingEnabled with
    | false => exact ⟨rfl, rfl⟩
    | true =>
      dsimp only []
      rw [h]
      exact ⟨rfl, rfl⟩

/-- Witness for C9 at concrete NaN samples and a NaN filter state. -/
theorem nan_dropped_and_resynced_witness :
    (onGenericReading JVal.nan (JVal.num 1) initState).rawGamma = initState.rawGamma ∧
    (doeHandler { gamma := some JVal.nan, beta := some (JVal.num 2) } 0 initState).2.rawGamma
      = initState.rawGamma ∧
    (applySmoothing { initState with smoothedGamma := JVal.nan } (JVal.num 3)).1
      = JVal.num 3 :=
  ⟨(nan_dropped_and_resynced.1 JVal.nan (JVal.num 1) initState rfl).1,
   nan_dropped_and_resynced.2.2.1 { gamma := some JVal.nan, beta := some (JVal.num 2) } 0
     initState JVal.nan rfl rfl,
   (nan_dropped_and_resynced.2.2.2 (JVal.num 3)
     { initState with smoothedGamma := JVal.nan } rfl).1⟩

/-- C5 counterexample: with smoothing enabled, filter state 0 and raw
angle 10, calling `calibrate` twice in succession (raw value unchanged
throughout) and then ticking yields a corrected angle of 1.2 degrees,
not 0: at the next tick the filter moves the smoothed value toward the
raw value before the offset is subtracted. -/
theorem calibrate_twice_nonzero_cex :
    (tick (JVal.num 0)
        (calibrate (calibrate { initState with rawGamma := JVal.num 10 }))).2.corrected
      = JVal.num (6/5) ∧ JVal.num (6/5) ≠ JVal.num 0 := by
  constructor
  · rw [tick_view]
    dsimp only []
    norm_num [calibrate, initState, applySmoothing_fst, JVal.isNaN, JVal.add, JVal.mul,
      JVal.sub, SMOOTHING_ALPHA]
  · simp only [ne_eq, JVal.num.injEq]
    norm_num

/-- C5 amended: `calibrate()` stores the current smoothed (filtered)
value as the offset — not the raw and not the corrected value — and its
only other core-state effect is resetting the bubble dot to center with
zero velocity.  The double-calibrate consequence holds under the added
premise that the smoothed value equals the raw value at calibration time
(filter at steady state, or smoothing disabled after a tick): then the
next tick after the second calibrate reports corrected = 0. -/
theorem calibrate_offsets_and_idempotence (s : GState) (v : ℚ) (now : JVal)
    (hr : s.rawGamma = JVal.num v) (hs : s.smoothedGamma = JVal.num v) :
    calibrate s = { s with
      calibrationOffset := s.smoothedGamma
      dotPx := JVal.num 50
      dotPy := JVal.num 50
      dotVx := JVal.num 0
      dotVy := JVal.num 0 } ∧
    (tick now (calibrate (calibrate s))).2.corrected = JVal.num 0 := by
  refine ⟨rfl, ?_⟩
  rw [tick_view]
  simp only [calibrate]
  rw [applySmoothing_fst]
  dsimp only []
  rw [hr, hs]
  cases hb : s.smoothingEnabled with
  | false => simp [JVal.sub]
  | true => simp [JVal.isNaN, JVal.add, JVal.mul, JVal.sub]

/-- Witness for the amended C5 at the initial state (raw = smoothed = 0). -/
theorem calibrate_offsets_and_idempotence_witness :
    calibrate initState = { initState with
      calibrationOffset := initState.smoothedGamma
      dotPx := JVal.num 50
      dotPy := JVal.num 50
      dotVx := JVal.num 0
      dotVy := JVal.num 0 } ∧
    (tick (JVal.num 0) (calibrate (calibrate initState))).2.corrected = JVal.num 0 :=
  calibrate_offsets_and_idempotence initState 0 (JVal.num 0) rfl rfl

/-- The bubble dot is at a numeric position inside the [0, 98]
percent-space box, with numeric velocities. -/
def DotNumInRange (s : GState) : Prop :=
  (∃ x : ℚ, s.dotPx = JVal.num x ∧ 0 ≤ x ∧ x ≤ 98) ∧
  (∃ y : ℚ, s.dotPy = JVal.num y ∧ 0 ≤ y ∧ y ≤ 98) ∧
  (∃ v : ℚ, s.dotVx = JVal.num v) ∧
  (∃ w : ℚ, s.dotVy = JVal.num w)

lemma tick_dotX_num (now : JVal) (s : GState) (g x v : ℚ)
    (hg : s.rawGamma = JVal.num g) (hx : s.dotPx = JVal.num x) (hv : s.dotVx = JVal.num v) :
    ((tick now s).1.dotPx, (tick now s).1.dotVx)
      = if 98 < x + (v + g * (1/60) * 2) * (1/2) ∨ x + (v + g * (1/60) * 2) * (1/2) < 0
        then (JVal.num (Max.max 0 (Min.min 98 (x + (v + g * (1/60) * 2) * (1/2)))), JVal.num 0)
        else (JVal.num (x + (v + g * (1/60) * 2) * (1/2)), JVal.num (v + g * (1/60) * 2)) := by
  have hX := tick_dotX now s
  rw [hg, hx, hv] at hX
  simp only [JVal.add, JVal.mul, JVal.sub, JVal.lt, JVal.min, JVal.max,
    Bool.or_eq_true, decide_eq_true_eq] at hX
  exact hX

lemma tick_dotY_num (now : JVal) (s : GState) (b y w : ℚ)
    (hb : s.rawBeta = JVal.num b) (hy : s.dotPy = JVal.num y) (hw : s.dotVy = JVal.num w) :
    ((tick now s).1.dotPy, (tick now s).1.dotVy)
      = if 98 < y + (w + b * (1/60)) * (1/2) ∨ y + (w + b * (1/60)) * (1/2) < 0
        then (JVal.num (Max.max 0 (Min.min 98 (y + (w + b * (1/60)) * (1/2)))), JVal.num 0)
        else (JVal.num (y + (w + b * (1/60)) * (1/2)), JVal.num (w + b * (1/60))) := by
  have hY := tick_dotY now s
  rw [hb, hy, hw] at hY
  simp only [JVal.add, JVal.mul, JVal.sub, JVal.lt, JVal.min, JVal.max,
    Bool.or_eq_true, decide_eq_true_eq] at hY
  exact hY

lemma tick_dot_inv (now : JVal) (s : GState) (g b : ℚ)
    (hg : s.rawGamma = JVal.num g) (hb : s.rawBeta = JVal.num b)
    (hinv : DotNumInRange s) : DotNumInRange (tick now s).1 := by
  obtain ⟨⟨x, hx, hx0, hx98⟩, ⟨y, hy, hy0, hy98⟩, ⟨v, hv⟩, ⟨w, hw⟩⟩ := hinv
  have hX := tick_dotX_num now s g x v hg hx hv
  have hY := tick_dotY_num now s b y w hb hy hw
  have hX1 := congrArg Prod.fst hX
  have hX2 := congrArg Prod.snd hX
  have hY1 := congrArg Prod.fst hY
  have hY2 := congrArg Prod.snd hY
  dsimp only [] at hX1 hX2 hY1 hY2
  constructor
  · by_cases hc : 98 < x + (v + g * (1/60) * 2) * (1/2) ∨ x + (v + g * (1/60) * 2) * (1/2) < 0
    · rw [if_pos hc] at hX1
      exact ⟨_, by rw [hX1], le_max_left 0 _, max_le (by norm_num) (min_le_left 98 _)⟩
    · rw [if_neg hc] at hX1
      have h98 : x + (v + g * (1/60) * 2) * (1/2) ≤ 98 :=
        le_of_not_lt fun hlt => hc (Or.inl hlt)
      have h0 : 0 ≤ x + (v + g * (1/60) * 2) * (1/2) :=
        le_of_not_lt fun hlt => hc (Or.inr hlt)
      exact ⟨_, by rw [hX1], h0, h98⟩
  refine ⟨?_, ?_, ?_⟩
  · by_cases hc : 98 < y + (w + b * (1/60)) * (1/2) ∨ y + (w + b * (1/60)) * (1/2) < 0
    · rw [if_pos hc] at hY1
      exact ⟨_, by rw [hY1], le_max_left 0 _, max_le (by norm_num) (min_le_left 98 _)⟩
    · rw [if_neg hc] at hY1
      have h98 : y + (w + b * (1/60)) * (1/2) ≤ 98 :=
        le_of_not_lt fun hlt => hc (Or.inl hlt)
      have h0 : 0 ≤ y + (w + b * (1/60)) * (1/2) :=
        le_of_not_lt fun hlt => hc (Or.inr hlt)
      exact ⟨_, by rw [hY1], h0, h98⟩
  · by_cases hc : 98 < x + (v + g * (1/60) * 2) * (1/2) ∨ x + (v + g * (1/60) * 2) * (1/2) < 0
    · rw [if_pos hc] at hX2
      exact ⟨0, hX2⟩
    · rw [if_neg hc] at hX2
      exact ⟨_, hX2⟩
  · by_cases hc : 98 < y + (w + b * (1/60)) * (1/2) ∨ y + (w + b * (1/60)) * (1/2) < 0
    · rw [if_pos hc] at hY2
      exact ⟨0, hY2⟩
    · rw [if_neg hc] at hY2
      exact ⟨_, hY2⟩

lemma tickSeq_dot_inv (L : List (JVal × ℚ × ℚ)) : ∀ (s : GState),
    DotNumInRange s → DotNumInRange (tickSeq L s) := by
  induction L with
  | nil => intro s h; exact h
  | cons e t ih =>
    intro s h
    rcases e with ⟨now, g, b⟩
    simp only [tickSeq]
    apply ih
    apply tick_dot_inv now _ g b rfl rfl
    obtain ⟨h1, h2, h3, h4⟩ := h
    exact ⟨h1, h2, h3, h4⟩

/-- C7: bubble-indicator physics.  Per tick, each velocity gains the
corresponding raw-angle forcing (`vx += rawGamma·(1/60)·2`,
`vy += rawBeta·(1/60)`), each position advances by half the updated
velocity, and a position leaving [0, 98] is clamped back into [0, 98]
with its velocity set to exactly 0 (inelastic boundary).  Consequently,
from any numeric start with positions in [0, 98] the positions remain in
[0, 98] after any number of ticks under any numeric raw inputs; and
driving vx to 1000 for one tick clamps px to exactly 98 and zeroes vx,
so px stays exactly 98 on the following tick with rawGamma = 0. -/
theorem dot_physics_clamped :
    (∀ (now : JVal) (s : GState) (g x v : ℚ),
        s.rawGamma = JVal.num g → s.dotPx = JVal.num x → s.dotVx = JVal.num v →
        ((tick now s).1.dotPx, (tick now s).1.dotVx)
          = if 98 < x + (v + g * (1/60) * 2) * (1/2) ∨ x + (v + g * (1/60) * 2) * (1/2) < 0
            then (JVal.num (Max.max 0 (Min.min 98 (x + (v + g * (1/60) * 2) * (1/2)))),
                  JVal.num 0)
            else (JVal.num (x + (v + g * (1/60) * 2) * (1/2)),
                  JVal.num (v + g * (1/60) * 2))) ∧
    (∀ (now : JVal) (s : GState) (b y w : ℚ),
        s.rawBeta = JVal.num b → s.dotPy = JVal.num y → s.dotVy = JVal.num w →
        ((tick now s).1.dotPy, (tick now s).1.dotVy)
          = if 98 < y + (w + b * (1/60)) * (1/2) ∨ y + (w + b * (1/60)) * (1/2) < 0
            then (JVal.num (Max.max 0 (Min.min 98 (y + (w + b * (1/60)) * (1/2)))),
                  JVal.num 0)
            else (JVal.num (y + (w + b * (1/60)) * (1/2)),
                  JVal.num (w + b * (1/60)))) ∧
    (∀ (L : List (JVal × ℚ × ℚ)) (s : GState),
        DotNumInRange s → DotNumInRange (tickSeq L s)) ∧
    ((tick (JVal.num 0) { initState with dotVx := JVal.num 1000 }).1.dotPx = JVal.num 98 ∧
     (tick (JVal.num 0) { initState with dotVx := JVal.num 1000 }).1.dotVx = JVal.num 0 ∧
     (tick (JVal.num 0)
         (tick (JVal.num 0) { initState with dotVx := JVal.num 1000 }).1).1.dotPx
       = JVal.num 98) := by
  refine ⟨tick_dotX_num, tick_dotY_num, tickSeq_dot_inv, ?_, ?_, ?_⟩
  · have h := tick_dotX_num (JVal.num 0) { initState with dotVx := JVal.num 1000 }
      0 50 1000 rfl rfl rfl
    have h1 := congrArg Prod.fst h
    dsimp only [] at h1
    rw [if_pos (by norm_num)] at h1
    rw [h1]
    norm_num [min_def, max_def]
  · have h := tick_dotX_num (JVal.num 0) { initState with dotVx := JVal.num 1000 }
      0 50 1000 rfl rfl rfl
    have h2 := congrArg Prod.snd h
    dsimp only [] at h2
    rw [if_pos (by norm_num)] at h2
    rw [h2]
  · have h := tick_dotX_num (JVal.num 0) { initState with dotVx := JVal.num 1000 }
      0 50 1000 rfl rfl rfl
    have h1 := congrArg Prod.fst h
    have h2 := congrArg Prod.snd h
    dsimp only [] at h1 h2
    rw [if_pos (by norm_num)] at h1 h2
    have hx98 : (tick (JVal.num 0) { initState with dotVx := JVal.num 1000 }).1.dotPx
        = JVal.num 98 := by rw [h1]; norm_num [min_def, max_def]
    have hv0 : (tick (JVal.num 0) { initState with dotVx := JVal.num 1000 }).1.dotVx
        = JVal.num 0 := h2
    have hraw : (tick (JVal.num 0) { initState with dotVx := JVal.num 1000 }).1.rawGamma
        = JVal.num 0 := tick_rawGamma _ _
    have hsec := tick_dotX_num (JVal.num 0)
      (tick (JVal.num 0) { initState with dotVx := JVal.num 1000 }).1
      0 98 0 hraw hx98 hv0
    have hsec1 := congrArg Prod.fst hsec
    dsimp only [] at hsec1
    rw [if_neg (by norm_num)] at hsec1
    rw [hsec1]
    norm_num

/-- Witness for C7: the per-axis update applied at the initial state (no
clamp triggered), and the range invariant applied to a one-tick scenario
list from the initial state. -/
theorem dot_physics_clamped_witness :
    ((tick (JVal.num 0) initState).1.dotPx, (tick (JVal.num 0) initState).1.dotVx)
      = (JVal.num 50, JVal.num 0) ∧
    DotNumInRange (tickSeq [(JVal.num 0, 5, 3)] initState) := by
  constructor
  · have h := dot_physics_clamped.1 (JVal.num 0) initState 0 50 0 rfl rfl rfl
    rw [h, if_neg (by norm_num)]
    norm_num
  · exact dot_physics_clamped.2.2.1 [(JVal.num 0, 5, 3)] initState
      ⟨⟨50, rfl, by norm_num, by norm_num⟩, ⟨50, rfl, by norm_num, by norm_num⟩,
       ⟨0, rfl⟩, ⟨0, rfl⟩⟩

/-- The claim C8 fallback scenario environment: the primary source is
unavailable, and three synthetic deviceorientation events with gamma = 5
arrive within the window. -/
def envDOE3 : MotionEnv :=
  { generic := GenericOutcome.unavailable
    doeAvail := true
    doePerm := DOEPermission.noPermFn
    doeEvents := [{ gamma := some (JVal.num 5), beta := some (JVal.num 0) },
                  { gamma := some (JVal.num 5), beta := some (JVal.num 0) },
                  { gamma := some (JVal.num 5), beta := some (JVal.num 0) }]
    now := JVal.num 0 }

/-- When the generic attempt fails and the device-orientation attempt
resolves true, `enableMotion` records the DEVICE_ORIENTATION session. -/
lemma enableMotion_doe_success (env : MotionEnv) (s : GState)
    (hg : (tryGenericSensor env.generic s).1 = false)
    (hd : (tryDeviceOrientation env.doeAvail env.doePerm env.doeEvents
        (tryGenericSensor env.generic s).2).1 = true) :
    (enableMotion env s).sensorType = SensorType.deviceOrientation := by
  unfold enableMotion
  dsimp only []
  rw [hg, hd]
  simp only [Bool.false_eq_true, if_false, if_true]
  exact (onMotionReady_fields SensorType.deviceOrientation env.now _).1

/-- C8: the legacy device-orientation attempt resolves success as soon as
at least 3 events have arrived (whatever their readings), resolves
failure when zero events arrive within the timeout, and on the claim's
fallback scenario (primary unavailable, three synthetic gamma = 5
events) the session state becomes DEVICE_ORIENTATION. -/
theorem doe_fallback_resolution :
    (∀ (evs : List DOEEvent) (s : GState), 3 ≤ evs.length →
        (tryDeviceOrientation true DOEPermission.noPermFn evs s).1 = true ∧
        (tryDeviceOrientation true DOEPermission.granted evs s).1 = true) ∧
    (∀ s : GState, (tryDeviceOrientation true DOEPermission.noPermFn [] s).1 = false) ∧
    (enableMotion envDOE3 initState).sensorType = SensorType.deviceOrientation := by
  refine ⟨fun evs s h => ⟨?_, ?_⟩, fun s => ?_, ?_⟩
  · unfold tryDeviceOrientation
    simp only [Bool.not_true, Bool.false_eq_true, if_false]
    rw [doeFold_attempts, if_pos (by omega)]
  · unfold tryDeviceOrientation
    simp only [Bool.not_true, Bool.false_eq_true, if_false]
    rw [doeFold_attempts, if_pos (by omega)]
  · rfl
  · exact enableMotion_doe_success envDOE3 initState rfl rfl

/-- Witness for C8 at the three-event scenario list. -/
theorem doe_fallback_resolution_witness :
    3 ≤ envDOE3.doeEvents.length ∧
    (tryDeviceOrientation true DOEPermission.noPermFn envDOE3.doeEvents initState).1 = true :=
  ⟨by decide,
   (doe_fallback_resolution.1 envDOE3.doeEvents initState (by decide)).1⟩

/-- A first-reading outcome resolves the generic attempt true, counts one
sensor start, and leaves the animation-frame handle untouched. -/
lemma tryGenericSensor_reading (q : Option (JVal × JVal)) (s : GState) :
    (tryGenericSensor (GenericOutcome.firstReading q) s).1 = true ∧
    (tryGenericSensor (GenericOutcome.firstReading q) s).2.startedSources
      = s.startedSources + 1 ∧
    (tryGenericSensor (GenericOutcome.firstReading q) s).2.animFrameId = s.animFrameId := by
  cases q with
  | none => exact ⟨rfl, rfl, rfl⟩
  | some gb =>
    rcases gb with ⟨g, b⟩
    refine ⟨rfl, ?_, ?_⟩
    · exact (onGenericReading_pres g b { s with startedSources := s.startedSources + 1 }).2.2.1
    · exact (onGenericReading_pres g b { s with startedSources := s.startedSources + 1 }).1

/-- Every `enableMotion` call whose generic attempt delivers a reading
starts one more sensor source and leaves a live frame handle. -/
lemma enableMotion_generic_reading (env : MotionEnv) (q : Option (JVal × JVal)) (s : GState)
    (hq : env.generic = GenericOutcome.firstReading q) :
    (enableMotion env s).startedSources = s.startedSources + 1 ∧
    (enableMotion env s).animFrameId = true := by
  unfold enableMotion
  dsimp only []
  rw [hq]
  rw [(tryGenericSensor_reading q s).1]
  simp only [if_true]
  set S := (tryGenericSensor (GenericOutcome.firstReading q) s).2 with hS
  have hSs : S.startedSources = s.startedSources + 1 := (tryGenericSensor_reading q s).2.1
  have hSa : S.animFrameId = s.animFrameId := (tryGenericSensor_reading q s).2.2
  cases hA : s.animFrameId with
  | true =>
    have h1 := onMotionReady_active SensorType.genericSensor env.now S (hSa.trans hA)
    have h2 := (onMotionReady_fields SensorType.genericSensor env.now S).2.2.2
    exact ⟨h1.2.trans hSs, h2⟩
  | false =>
    constructor
    · -- startedSources through a real launch
      unfold onMotionReady
      dsimp only []
      have h' := startRenderLoop_inactive env.now
        { S with sensorType := SensorType.genericSensor, motionEnabled := true,
                 btnMotionDisabled := true } (by simpa [hSa] using hA)
      exact h'.2.2.1.trans hSs
    · exact (onMotionReady_fields SensorType.genericSensor env.now S).2.2.2

/-- An environment in which the generic sensor succeeds with an
immediate (0, 0) reading. -/
def envGenericReading : MotionEnv :=
  { generic := GenericOutcome.firstReading (some (JVal.num 0, JVal.num 0))
    doeAvail := false
    doePerm := DOEPermission.noPermFn
    doeEvents := []
    now := JVal.num 0 }

/-- C6 counterexample: `enableMotion` has no session-state guard.  With
the generic source available, a second call while the session is active
starts a second sensor source (the start counter reaches 2) and changes
the state, so the second call is not a no-op. -/
theorem enableMotion_second_call_cex :
    (enableMotion envGenericReading (enableMotion envGenericReading initState)).startedSources
      = 2 ∧
    enableMotion envGenericReading (enableMotion envGenericReading initState)
      ≠ enableMotion envGenericReading initState := by
  have h1 := enableMotion_generic_reading envGenericReading
    (some (JVal.num 0, JVal.num 0)) initState rfl
  have h2 := enableMotion_generic_reading envGenericReading
    (some (JVal.num 0, JVal.num 0)) (enableMotion envGenericReading initState) rfl
  refine ⟨?_, ?_⟩
  · rw [h2.1, h1.1]
    rfl
  · intro he
    have hc := congrArg GState.startedSources he
    rw [h2.1, h1.1] at hc
    omega

/-- C6 amended: `enableMotion` itself has no session-state guard — a
second direct call re-attempts the sensor sources and can start a second
one (see the counterexample).  What does hold: while a session is active
(a frame handle is live), no second render loop is ever started, because
`startRenderLoop` returns early; and re-enabling through the UI is
prevented because `onMotionReady` disables the Motion button. -/
theorem enableMotion_no_internal_guard (env : MotionEnv) (s : GState)
    (h : s.animFrameId = true) :
    (enableMotion env s).renderLoopStartCount = s.renderLoopStartCount ∧
    (∀ (st : SensorType) (now : JVal) (t : GState),
        (onMotionReady st now t).btnMotionDisabled = true) := by
  constructor
  · unfold enableMotion
    dsimp only []
    split
    · have hA : (tryGenericSensor env.generic s).2.animFrameId = true :=
        (tryGenericSensor_pres env.generic s).1.trans h
      exact ((onMotionReady_active _ env.now _ hA).1).trans
        (tryGenericSensor_pres env.generic s).2
    · split
      · have hA : (tryDeviceOrientation env.doeAvail env.doePerm env.doeEvents
            (tryGenericSensor env.generic s).2).2.animFrameId = true :=
          (tryDeviceOrientation_pres _ _ _ _).1.trans
            ((tryGenericSensor_pres env.generic s).1.trans h)
        exact ((onMotionReady_active _ env.now _ hA).1).trans
          ((tryDeviceOrientation_pres _ _ _ _).2.trans (tryGenericSensor_pres env.generic s).2)
      · exact (tryDeviceOrientation_pres _ _ _ _).2.trans (tryGenericSensor_pres env.generic s).2
  · intro st now t
    exact (onMotionReady_fields st now t).2.2.1

/-- Witness for the amended C6: the second call on the active session
leaves the render-loop launch count unchanged, and the button is
disabled on success. -/
theorem enableMotion_no_internal_guard_witness :
    (enableMotion envGenericReading (enableMotion envGenericReading initState)).renderLoopStartCount
      = (enableMotion envGenericReading initState).renderLoopStartCount ∧
    (onMotionReady SensorType.genericSensor (JVal.num 0) initState).btnMotionDisabled = true :=
  ⟨(enableMotion_no_internal_guard envGenericReading (enableMotion envGenericReading initState)
      (enableMotion_generic_reading envGenericReading (some (JVal.num 0, JVal.num 0))
        initState rfl).2).1,
   (enableMotion_no_internal_guard envGenericReading (enableMotion envGenericReading initState)
      (enableMotion_generic_reading envGenericReading (some (JVal.num 0, JVal.num 0))
        initState rfl).2).2 SensorType.genericSensor (JVal.num 0) initState⟩
